import Mathlib

/-!
Verification of the hotkey-dispatch and overlay-selection core of the
macos-ai-overlay repository (packages macos_multi_overlay and
macos_grok_overlay), against a shallow embedding of the Python sources.

Embedded modules:
* macos_multi_overlay/config/hotkeys.py   (HotkeyManager)
* macos_multi_overlay/ui/listener.py      (global_hotkey_listener, set_new_hotkey)
* macos_multi_overlay/overlays/base.py    (Overlay.from_json, Overlay.validate)
* macos_multi_overlay/overlays/__init__.py (OverlayManager)
* macos_multi_overlay/ui/app.py           (AppDelegate.toggle_overlay, hideWindow_)
* macos_grok_overlay/health_checks.py     (check_crash_loop)
* macos_grok_overlay/listener.py          (set_custom_launcher_trigger,
                                           global_show_hide_listener)

Python dicts are modelled as insertion-ordered association lists with
unique keys; JSON values as the inductive type JVal; Python equality on
JSON values as the structural boolean JVal.beq.
-/

namespace MacosAiOverlay

/-- A JSON value, as produced by json.load. -/
inductive JVal where
  | null
  | jbool (b : Bool)
  | num (n : Int)
  | str (s : String)
  | arr (xs : List JVal)
  | obj (fields : List (String × JVal))

mutual

/-- Python equality (==) on JSON values: structural comparison. -/
def JVal.beq : JVal → JVal → Bool
  | .null, .null => true
  | .jbool a, .jbool b => a == b
  | .num a, .num b => a == b
  | .str a, .str b => a == b
  | .arr xs, .arr ys => JVal.beqList xs ys
  | .obj fs, .obj gs => JVal.beqFields fs gs
  | _, _ => false

/-- Elementwise Python equality on JSON arrays. -/
def JVal.beqList : List JVal → List JVal → Bool
  | [], [] => true
  | x :: xs, y :: ys => JVal.beq x y && JVal.beqList xs ys
  | _, _ => false

/-- Fieldwise Python equality on JSON objects (insertion order respected,
which is sound for equality of dicts with identical field order). -/
def JVal.beqFields : List (String × JVal) → List (String × JVal) → Bool
  | [], [] => true
  | (k, v) :: fs, (k2, v2) :: gs => k == k2 && JVal.beq v v2 && JVal.beqFields fs gs
  | _, _ => false

end

/-- Python truthiness of a JSON value (used by Overlay.validate's all([...])). -/
def JVal.truthy : JVal → Bool
  | .null => false
  | .jbool b => b
  | .num n => n != 0
  | .str s => !s.isEmpty
  | .arr xs => !xs.isEmpty
  | .obj fs => !fs.isEmpty

/-- Association-list lookup with an explicit key-equality test: d[k] / d.get(k)
on a Python dict modelled as an insertion-ordered association list. -/
def assocGet (eqk : κ → κ → Bool) (d : List (κ × α)) (k : κ) : Option α :=
  (d.find? (fun p => eqk p.1 k)).map (fun p => p.2)

/-- Association-list update: d[k] = v on a Python dict. Replaces the value at
the first key equal to k (keeping the stored key, as CPython does), else
appends, preserving insertion order. -/
def assocSet (eqk : κ → κ → Bool) : List (κ × α) → κ → α → List (κ × α)
  | [], k, v => [(k, v)]
  | p :: t, k, v => if eqk p.1 k then (p.1, v) :: t else p :: assocSet eqk t k v

/-- String-keyed dict lookup. -/
def strDictGet (d : List (String × α)) (k : String) : Option α :=
  assocGet (fun a b => a == b) d k

/-- String-keyed dict update. -/
def strDictSet (d : List (String × α)) (k : String) (v : α) : List (String × α) :=
  assocSet (fun a b => a == b) d k v

section AssocLemmas

variable {κ α : Type} (eqk : κ → κ → Bool)

theorem assocGet_assocSet_self (d : List (κ × α)) (k : κ) (v : α)
    (hrefl : eqk k k = true) :
    assocGet eqk (assocSet eqk d k v) k = some v := by
  induction d with
  | nil => simp [assocSet, assocGet, List.find?, hrefl]
  | cons p t ih =>
    by_cases h : eqk p.1 k
    · simp [assocSet, assocGet, List.find?, h]
    · simp only [assocSet, h, if_false]
      simpa [assocGet, List.find?, h] using ih

theorem assocGet_append (d₁ d₂ : List (κ × α)) (k : κ) :
    assocGet eqk (d₁ ++ d₂) k =
      match assocGet eqk d₁ k with
      | some v => some v
      | none => assocGet eqk d₂ k := by
  induction d₁ with
  | nil => simp [assocGet]
  | cons p t ih =>
    by_cases h : eqk p.1 k
    · simp [assocGet, List.find?, h]
    · simpa [assocGet, List.find?, h] using ih

theorem assocGet_isSome_iff_any (d : List (κ × α)) (k : κ) :
    (assocGet eqk d k).isSome = d.any (fun p => eqk p.1 k) := by
  induction d with
  | nil => simp [assocGet]
  | cons p t ih =>
    by_cases h : eqk p.1 k
    · simp [assocGet, List.find?, h]
    · simpa [assocGet, List.find?, h] using ih

end AssocLemmas

/-- If the list of elements satisfying p is exactly [b] after mapping f, then
find? followed by f yields b; if no element satisfies p, find? yields none. -/
theorem find?_map_of_filter {α β : Type} (p : α → Bool) (f : α → β) (l : List α) :
    (∀ b, (l.filter p).map f = [b] → (l.find? p).map f = some b) ∧
      ((l.filter p).map f = [] → (l.find? p).map f = none) := by
  induction l with
  | nil => simp
  | cons x t ih =>
    by_cases h : p x
    · refine ⟨?_, ?_⟩
      · intro b hb
        simp only [List.filter_cons, h, if_true, List.map_cons, List.cons.injEq] at hb
        simp [List.find?, h, hb.1]
      · intro hb
        simp [List.filter_cons, h] at hb
    · simpa [List.filter_cons, List.find?, h] using ih

/-! ### Constants (src/macos_multi_overlay/constants.py, Quartz flag masks) -/

/-- Quartz kCGEventFlagMaskShift. -/
def kCGEventFlagMaskShift : Nat := 131072

/-- Quartz kCGEventFlagMaskControl. -/
def kCGEventFlagMaskControl : Nat := 262144

/-- Quartz kCGEventFlagMaskAlternate. -/
def kCGEventFlagMaskAlternate : Nat := 524288

/-- Quartz kCGEventFlagMaskCommand. -/
def kCGEventFlagMaskCommand : Nat := 1048576

/-- LAUNCHER_TRIGGER_MASK: the four modifier bits. -/
def LAUNCHER_TRIGGER_MASK : Nat :=
  kCGEventFlagMaskShift ||| kCGEventFlagMaskControl |||
  kCGEventFlagMaskAlternate ||| kCGEventFlagMaskCommand

/-- A key binding as stored by HotkeyManager: the dict {"flags": f, "key": k}.
Entries written by set_overlay_hotkey / set_unified_menu_hotkey and the
built-in overlay defaults all have this well-typed shape. -/
structure Binding where
  flags : Nat
  key : Nat
deriving DecidableEq, Repr

/-- UNIFIED_MENU_TRIGGER: Option+Shift+Space. -/
def UNIFIED_MENU_TRIGGER : Binding :=
  { flags := kCGEventFlagMaskAlternate ||| kCGEventFlagMaskShift, key := 49 }

/-! ### HotkeyManager (src/macos_multi_overlay/config/hotkeys.py) -/

/-- In-memory state of HotkeyManager: self.hotkeys (insertion-ordered dict of
overlay id to binding) and self.unified_menu_hotkey. -/
structure HMState where
  hotkeys : List (String × Binding)
  unified : Binding
deriving DecidableEq, Repr

/-- HotkeyManager.get_overlay_hotkey. -/
def get_overlay_hotkey (st : HMState) (overlay_id : String) : Option Binding :=
  strDictGet st.hotkeys overlay_id

/-- HotkeyManager.set_overlay_hotkey (the save_hotkeys file write is an
external effect and not modelled). -/
def set_overlay_hotkey (st : HMState) (overlay_id : String) (flags key : Nat) :
    HMState :=
  { st with hotkeys := strDictSet st.hotkeys overlay_id { flags := flags, key := key } }

/-- HotkeyManager.set_unified_menu_hotkey. -/
def set_unified_menu_hotkey (st : HMState) (flags key : Nat) : HMState :=
  { st with unified := { flags := flags, key := key } }

/-- HotkeyManager.handle_key_event: the unified-menu binding is compared
first; then the overlay bindings are scanned in insertion order and the
first exact match wins; otherwise None. -/
def handle_key_event (st : HMState) (flags keycode : Nat) : Option String :=
  if flags == st.unified.flags && keycode == st.unified.key then
    some "unified_menu"
  else
    (st.hotkeys.find? (fun p => flags == p.2.flags && keycode == p.2.key)).map
      (fun p => p.1)

/-- The actions whose stored binding equals the pair (flags, keycode):
the reserved unified-menu action when its binding matches, followed by
every overlay id whose table entry matches, in insertion order. -/
def boundActions (st : HMState) (flags keycode : Nat) : List String :=
  (if flags == st.unified.flags && keycode == st.unified.key then
    ["unified_menu"] else [])
  ++ (st.hotkeys.filter (fun p => flags == p.2.flags && keycode == p.2.key)).map
      (fun p => p.1)

/-- Claim C1: for every hotkey table and every (modifierMask, keyCode) pair
stored as the binding of exactly one action, handle_key_event returns that
action's id; for every pair equal to no stored binding it returns none. -/
theorem handle_key_event_match_spec (st : HMState) (flags keycode : Nat) :
    (∀ a, boundActions st flags keycode = [a] →
      handle_key_event st flags keycode = some a) ∧
    (boundActions st flags keycode = [] →
      handle_key_event st flags keycode = none) := by
  by_cases hu : (flags == st.unified.flags && keycode == st.unified.key) = true
  · refine ⟨?_, ?_⟩
    · intro a ha
      simp only [boundActions, hu, if_true, List.singleton_append,
        List.cons.injEq] at ha
      simp [handle_key_event, hu, ha.1]
    · intro ha
      simp [boundActions, hu] at ha
  · have h1 := find?_map_of_filter
      (fun p : String × Binding => flags == p.2.flags && keycode == p.2.key)
      (fun p => p.1) st.hotkeys
    refine ⟨?_, ?_⟩
    · intro a ha
      simp only [boundActions, hu, if_false, List.nil_append] at ha
      simpa [handle_key_event, hu] using h1.1 a ha
    · intro ha
      simp only [boundActions, hu, if_false, List.nil_append] at ha
      simpa [handle_key_event, hu] using h1.2 ha

/-- Witness for C1: in a concrete table, Option+Space is bound only to the
overlay "grok" and is matched to it, and an unbound pair yields none. -/
theorem handle_key_event_match_spec_witness :
    handle_key_event
        { hotkeys := [("grok", { flags := 524288, key := 49 })],
          unified := UNIFIED_MENU_TRIGGER } 524288 49 = some "grok" ∧
    handle_key_event
        { hotkeys := [("grok", { flags := 524288, key := 49 })],
          unified := UNIFIED_MENU_TRIGGER } 262144 36 = none :=
  ⟨(handle_key_event_match_spec
      { hotkeys := [("grok", { flags := 524288, key := 49 })],
        unified := UNIFIED_MENU_TRIGGER } 524288 49).1 "grok" (by decide),
   (handle_key_event_match_spec
      { hotkeys := [("grok", { flags := 524288, key := 49 })],
        unified := UNIFIED_MENU_TRIGGER } 262144 36).2 (by decide)⟩

/-- Claim C9: a pair that equals the unified-menu binding (even if it also
equals some overlay's binding) is always answered with "unified_menu": the
unified-menu check precedes the overlay scan in handle_key_event. -/
theorem handle_key_event_unified_menu_wins (st : HMState) (flags keycode : Nat)
    (hf : flags = st.unified.flags) (hk : keycode = st.unified.key)
    (hdup : ∃ p ∈ st.hotkeys, p.2.flags = flags ∧ p.2.key = keycode) :
    handle_key_event st flags keycode = some "unified_menu" := by
  subst hf hk
  simp [handle_key_event]

/-- Witness for C9: Option+Space bound both to the unified menu and to the
overlay "grok" resolves to the unified menu. -/
theorem handle_key_event_unified_menu_wins_witness :
    handle_key_event
        { hotkeys := [("grok", { flags := 524288, key := 49 })],
          unified := { flags := 524288, key := 49 } } 524288 49 =
      some "unified_menu" :=
  handle_key_event_unified_menu_wins
    { hotkeys := [("grok", { flags := 524288, key := 49 })],
      unified := { flags := 524288, key := 49 } } 524288 49 rfl rfl
    ⟨("grok", { flags := 524288, key := 49 }), List.mem_singleton.mpr rfl, rfl, rfl⟩

/-! ### Global key-event listener (src/macos_multi_overlay/ui/listener.py) -/

/-- State surrounding global_hotkey_listener: the hotkey manager singleton and
the module-level handle_new_trigger slot. A pending capture installed by
set_new_hotkey is determined by the (overlay_id, is_unified_menu) arguments
that the closure captured. -/
structure ListenerState where
  hm : HMState
  pending : Option (Option String × Bool)
deriving DecidableEq, Repr

/-- Verdict of one listener callback: the event is consumed (returning None to
the event tap) with optionally an action routed to the app delegate
(show_launch_menu for "unified_menu", toggle_overlay otherwise), or passed
through unchanged. -/
inductive TapResult where
  | consumed (fired : Option String)
  | passthrough
deriving DecidableEq, Repr

/-- set_new_hotkey: installs the capture closure in the module-level
handle_new_trigger slot. It does not touch the hotkey table. -/
def set_new_hotkey (st : ListenerState) (overlay_id : Option String)
    (is_unified_menu : Bool) : ListenerState :=
  { st with pending := some (overlay_id, is_unified_menu) }

/-- custom_handle_new_trigger (body of the closure installed by
set_new_hotkey): stores the captured combination for the unified menu or the
overlay. The elif overlay_id test is Python truthiness, so an empty id
stores nothing. -/
def custom_handle_new_trigger (hm : HMState) (p : Option String × Bool)
    (flags keycode : Nat) : HMState :=
  if p.2 then set_unified_menu_hotkey hm flags keycode
  else
    match p.1 with
    | some id => if id.isEmpty then hm else set_overlay_hotkey hm id flags keycode
    | none => hm

/-- One key-down delivery of the event tap callback built by
global_hotkey_listener: mask the raw event flags with LAUNCHER_TRIGGER_MASK;
if a capture is pending run it and consume; else match hotkeys and either
fire the unified menu, fire an overlay toggle (only for a truthy id), or
pass the event through. -/
def global_hotkey_listener_step (st : ListenerState) (rawFlags keycode : Nat) :
    TapResult × ListenerState :=
  let flags := rawFlags &&& LAUNCHER_TRIGGER_MASK
  match st.pending with
  | some p =>
      (.consumed none,
        { hm := custom_handle_new_trigger st.hm p flags keycode, pending := none })
  | none =>
      match handle_key_event st.hm flags keycode with
      | some a =>
          if a == "unified_menu" then (.consumed (some a), st)
          else if a.isEmpty then (.passthrough, st)
          else (.consumed (some a), st)
      | none => (.passthrough, st)

/-- The table's binding for a capture target: the unified-menu binding when
is_unified_menu was passed, else the overlay entry. -/
def bindingFor (hm : HMState) (overlay_id : Option String)
    (is_unified_menu : Bool) : Option Binding :=
  if is_unified_menu then some hm.unified
  else
    match overlay_id with
    | some id => get_overlay_hotkey hm id
    | none => none

/-! ### Single-overlay variant (src/macos_grok_overlay/listener.py) -/

/-- The module-level LAUNCHER_TRIGGER dict of the grok variant: each field is
an int or None (the unset sentinel written while capturing). -/
structure LauncherTrigger where
  flags : Option Nat
  key : Option Nat
deriving DecidableEq, Repr

/-- State around global_show_hide_listener: the LAUNCHER_TRIGGER dict, whether
handle_new_trigger is installed, and whether the window is key. -/
structure GrokListenerState where
  trigger : LauncherTrigger
  pending : Bool
  windowKey : Bool
deriving DecidableEq, Repr

/-- Verdict of one grok listener callback (show/hide is applied in-state). -/
inductive GrokTapResult where
  | consumed
  | passthrough
deriving DecidableEq, Repr

/-- set_custom_launcher_trigger (state effects only; the capture UI overlay is
not modelled): shows the window, writes the None sentinel into both fields
of LAUNCHER_TRIGGER, and installs the capture handler. -/
def set_custom_launcher_trigger (_st : GrokListenerState) : GrokListenerState :=
  { trigger := { flags := none, key := none }, pending := true, windowKey := true }

/-- One key-down delivery of the callback built by global_show_hide_listener:
capture runs only when the trigger holds the None sentinel AND a handler is
pending; otherwise an exact trigger match toggles the window. The capture
handler stores the masked combination, clears the pending slot and shows
the window. -/
def global_show_hide_listener_step (st : GrokListenerState)
    (rawFlags keycode : Nat) : GrokTapResult × GrokListenerState :=
  let flags := rawFlags &&& LAUNCHER_TRIGGER_MASK
  if (st.trigger.flags == none || st.trigger.key == none) && st.pending then
    (.consumed,
      { trigger := { flags := some flags, key := some keycode },
        pending := false, windowKey := true })
  else if st.trigger.flags == some flags && st.trigger.key == some keycode then
    if st.windowKey then (.consumed, { st with windowKey := false })
    else (.consumed, { st with windowKey := true })
  else (.passthrough, st)

/-- Counterexample to claim C4: in the multi-overlay implementation, entering
capture mode for the overlay "grok" leaves its stored binding untouched
(still the valid pair Option+Space) — no unset sentinel is ever written. -/
theorem set_new_hotkey_no_sentinel_counterexample :
    (set_new_hotkey
        { hm := { hotkeys := [("grok", { flags := 524288, key := 49 })],
                  unified := UNIFIED_MENU_TRIGGER },
          pending := none } (some "grok") false).hm =
      { hotkeys := [("grok", { flags := 524288, key := 49 })],
        unified := UNIFIED_MENU_TRIGGER } ∧
    get_overlay_hotkey
        (set_new_hotkey
          { hm := { hotkeys := [("grok", { flags := 524288, key := 49 })],
                    unified := UNIFIED_MENU_TRIGGER },
            pending := none } (some "grok") false).hm "grok" =
      some { flags := 524288, key := 49 } := by
  exact ⟨rfl, rfl⟩

/-- Claim C4 (amended): entering capture in the multi-overlay listener leaves
the hotkey table unchanged; the old binding nevertheless never fires during
capture because a pending handler is consulted before hotkey matching, and
the key-down is consumed without firing any action. The grok variant alone
disables the binding being replaced by writing the None sentinel. -/
theorem capture_entry_disables_old_action (st : ListenerState)
    (oid : Option String) (uni : Bool) (p : Option String × Bool)
    (rawFlags keycode : Nat) (hp : st.pending = some p) (g : GrokListenerState) :
    (set_new_hotkey st oid uni).hm = st.hm ∧
    (global_hotkey_listener_step st rawFlags keycode).1 = .consumed none ∧
    (global_hotkey_listener_step st rawFlags keycode).2.pending = none ∧
    (set_custom_launcher_trigger g).trigger = { flags := none, key := none } := by
  refine ⟨rfl, ?_, ?_, rfl⟩ <;> simp [global_hotkey_listener_step, hp]

/-- Witness for the amended C4: concrete capture-pending state in which a
key-down equal to the old "grok" binding is consumed with no action fired. -/
theorem capture_entry_disables_old_action_witness :
    (global_hotkey_listener_step
        { hm := { hotkeys := [("grok", { flags := 524288, key := 49 })],
                  unified := UNIFIED_MENU_TRIGGER },
          pending := some (some "grok", false) } 524288 49).1 = .consumed none ∧
    (set_custom_launcher_trigger
        { trigger := { flags := some 524288, key := some 49 },
          pending := false, windowKey := false }).trigger =
      { flags := none, key := none } :=
  ⟨(capture_entry_disables_old_action
      { hm := { hotkeys := [("grok", { flags := 524288, key := 49 })],
                unified := UNIFIED_MENU_TRIGGER },
        pending := some (some "grok", false) }
      (some "grok") false (some "grok", false) 524288 49 rfl
      { trigger := { flags := some 524288, key := some 49 },
        pending := false, windowKey := false }).2.1,
   (capture_entry_disables_old_action
      { hm := { hotkeys := [("grok", { flags := 524288, key := 49 })],
                unified := UNIFIED_MENU_TRIGGER },
        pending := some (some "grok", false) }
      (some "grok") false (some "grok", false) 524288 49 rfl
      { trigger := { flags := some 524288, key := some 49 },
        pending := false, windowKey := false }).2.2.2⟩

theorem custom_handle_new_trigger_overlay (hm : HMState) (id : String)
    (m k : Nat) (hne : id.isEmpty = false) :
    custom_handle_new_trigger hm (some id, false) m k =
      set_overlay_hotkey hm id m k := by
  simp [custom_handle_new_trigger, hne]

/-- Claim C5: capture round-trip. Entering capture for a target (a nonempty
overlay id, or the unified menu as called by setUnifiedMenuHotkey_) and then
delivering one key-down with modifier mask m and keycode k stores (m, k) as
the target's binding, clears the pending handler (back to Idle), and
consumes that single event without firing any action. -/
theorem capture_round_trip (st : ListenerState) (oid : Option String)
    (uni : Bool) (m k : Nat)
    (htgt : uni = true ∨ ∃ id, oid = some id ∧ id.isEmpty = false)
    (hm : m &&& LAUNCHER_TRIGGER_MASK = m) :
    bindingFor (global_hotkey_listener_step (set_new_hotkey st oid uni) m k).2.hm
        oid uni = some { flags := m, key := k } ∧
    (global_hotkey_listener_step (set_new_hotkey st oid uni) m k).2.pending =
      none ∧
    (global_hotkey_listener_step (set_new_hotkey st oid uni) m k).1 =
      .consumed none := by
  refine ⟨?_, by simp [global_hotkey_listener_step, set_new_hotkey],
    by simp [global_hotkey_listener_step, set_new_hotkey]⟩
  rcases htgt with h | ⟨id, hid, hne⟩
  · subst h
    simp [global_hotkey_listener_step, set_new_hotkey,
      custom_handle_new_trigger, set_unified_menu_hotkey, bindingFor, hm]
  · subst hid
    rcases Bool.eq_false_or_eq_true uni with hu | hu
    · subst hu
      simp [global_hotkey_listener_step, set_new_hotkey,
        custom_handle_new_trigger, set_unified_menu_hotkey, bindingFor, hm]
    · subst hu
      have hstep :
          global_hotkey_listener_step (set_new_hotkey st (some id) false) m k =
            (.consumed none,
              { hm := set_overlay_hotkey st.hm id m k, pending := none }) := by
        simp [global_hotkey_listener_step, set_new_hotkey, hm,
          custom_handle_new_trigger, hne]
      rw [hstep]
      simp only [bindingFor, Bool.false_eq_true, if_false, get_overlay_hotkey,
        set_overlay_hotkey, strDictGet, strDictSet]
      exact assocGet_assocSet_self _ _ _ _ (by simp)

/-- Witness for C5: capturing Control+Return for the overlay "grok" stores
that binding and returns the listener to Idle. -/
theorem capture_round_trip_witness :
    bindingFor
        (global_hotkey_listener_step
          (set_new_hotkey
            { hm := { hotkeys := [("grok", { flags := 524288, key := 49 })],
                      unified := UNIFIED_MENU_TRIGGER },
              pending := none } (some "grok") false) 262144 36).2.hm
        (some "grok") false = some { flags := 262144, key := 36 } :=
  (capture_round_trip
    { hm := { hotkeys := [("grok", { flags := 524288, key := 49 })],
              unified := UNIFIED_MENU_TRIGGER },
      pending := none } (some "grok") false 262144 36
    (Or.inr ⟨"grok", rfl, by decide⟩) (by decide)).1

/-! ### Crash-loop guard (src/macos_grok_overlay/health_checks.py) -/

/-- CRASH_THRESHOLD. -/
def CRASH_THRESHOLD : Int := 3

/-- CRASH_TIME_WINDOW (seconds). -/
def CRASH_TIME_WINDOW : Int := 60

/-- Outcome of one check_crash_loop call: abort models the sys.exit(1) taken
when the counter exceeds the threshold, ok models returning normally. -/
inductive CrashResult where
  | ok
  | abort
deriving DecidableEq, Repr

/-- check_crash_loop: reads the stored (last_time, count) pair (none models a
missing or unreadable counter file, handled by resetting to 0), increments
the count when the previous record is within the time window else resets it
to 1, persists the new pair, and aborts when the count exceeds the
threshold. Returns the verdict and the persisted pair. -/
def check_crash_loop (now : Int) (stored : Option (Int × Int)) :
    CrashResult × Int × Int :=
  let last_time := (stored.map Prod.fst).getD 0
  let count0 := (stored.map Prod.snd).getD 0
  let count := if now - last_time < CRASH_TIME_WINDOW then count0 + 1 else 1
  ((if count > CRASH_THRESHOLD then .abort else .ok), (now, count))

/-- A sequence of startup attempts at the given times: each call reads the
pair persisted by the previous one (the counter file survives across
process restarts). -/
def run_crash_checks (times : List Int) (stored : Option (Int × Int)) :
    List CrashResult :=
  match times with
  | [] => []
  | t :: rest =>
      let r := check_crash_loop t stored
      r.1 :: run_crash_checks rest (some r.2)

/-- Counterexample to claim C2: starting with no stored counter state, three
calls at times 100, 110, 120 (each 10 seconds apart) all return ok — the
stored count after the third call is 3, which does not exceed the
threshold 3, so the third call does not abort as the claim states. -/
theorem check_crash_loop_three_calls_counterexample :
    run_crash_checks [100, 110, 120] none =
        [CrashResult.ok, CrashResult.ok, CrashResult.ok] ∧
    (check_crash_loop 120 (some (110, 2))).2 = (120, 3) ∧
    run_crash_checks [100, 110, 120] none ≠
        [CrashResult.ok, CrashResult.ok, CrashResult.abort] := by
  refine ⟨by decide, by decide, by decide⟩

/-- Claim C2 (amended): with threshold 3 and window 60 seconds, starting from
no stored counter state, successive check_crash_loop calls each within the
window of the previous one return ok, ok, ok, abort: the first call stores
count 1 whatever its time, the third call stores count 3 (not exceeding the
threshold), and only the fourth call reaches count 4 > 3 and aborts. -/
theorem check_crash_loop_fourth_aborts (t1 t2 t3 t4 : Int)
    (h2 : t2 - t1 < 60) (h3 : t3 - t2 < 60) (h4 : t4 - t3 < 60) :
    run_crash_checks [t1, t2, t3, t4] none =
      [CrashResult.ok, CrashResult.ok, CrashResult.ok, CrashResult.abort] := by
  have e1 : check_crash_loop t1 none = (.ok, (t1, 1)) := by
    by_cases h : t1 - 0 < CRASH_TIME_WINDOW <;>
      simp [check_crash_loop, CRASH_THRESHOLD, h]
  have e2 : check_crash_loop t2 (some (t1, 1)) = (.ok, (t2, 2)) := by
    simp [check_crash_loop, CRASH_TIME_WINDOW, CRASH_THRESHOLD, h2]
  have e3 : check_crash_loop t3 (some (t2, 2)) = (.ok, (t3, 3)) := by
    simp [check_crash_loop, CRASH_TIME_WINDOW, CRASH_THRESHOLD, h3]
  have e4 : check_crash_loop t4 (some (t3, 3)) = (.abort, (t4, 4)) := by
    simp [check_crash_loop, CRASH_TIME_WINDOW, CRASH_THRESHOLD, h4]
  simp [run_crash_checks, e1, e2, e3, e4]

/-- Witness for the amended C2: four attempts 10 seconds apart abort exactly
on the fourth. -/
theorem check_crash_loop_fourth_aborts_witness :
    run_crash_checks [100, 110, 120, 130] none =
      [CrashResult.ok, CrashResult.ok, CrashResult.ok, CrashResult.abort] :=
  check_crash_loop_fourth_aborts 100 110 120 130 (by decide) (by decide)
    (by decide)

/-! ### Overlay declarations (src/macos_multi_overlay/overlays/base.py) -/

/-- Key-presence test on a JSON object's fields: field in json_data. -/
def jHasKey (fields : List (String × JVal)) (k : String) : Bool :=
  fields.any (fun p => p.1 == k)

/-- An Overlay instance. Field values are arbitrary JSON values, as nothing
in the Python class constrains their types; built-in overlays use strings
and a {"flags", "key"} dict. -/
structure Overlay where
  id : JVal
  name : JVal
  url : JVal
  icon_path : JVal
  default_hotkey : JVal
  description : JVal

/-- Overlay.from_json: raises ValueError when any of the required fields
id, name, url, iconPath is missing; optional fields defaultHotkey and
description fall back to the class defaults {} and "". A payload that is
not a JSON object also raises (the membership tests / subscripting fail);
every exception from this function is caught identically by the per-file
handler of the discovery loop, so all are modelled as .error. -/
def Overlay.from_json : JVal → Except String Overlay
  | .obj fields =>
      if jHasKey fields "id" && jHasKey fields "name" && jHasKey fields "url" &&
          jHasKey fields "iconPath" then
        .ok { id := (strDictGet fields "id").getD .null,
              name := (strDictGet fields "name").getD .null,
              url := (strDictGet fields "url").getD .null,
              icon_path := (strDictGet fields "iconPath").getD .null,
              default_hotkey := (strDictGet fields "defaultHotkey").getD (.obj []),
              description := (strDictGet fields "description").getD (.str "") }
      else .error "Missing required fields"
  | _ => .error "not a JSON object"

/-- Overlay.validate: all([id, name, url, icon_path]) under Python
truthiness. -/
def Overlay.validate (o : Overlay) : Bool :=
  o.id.truthy && o.name.truthy && o.url.truthy && o.icon_path.truthy

/-- Overlay.get_absolute_icon_path with an explicit base directory:
os.path.isabs raises TypeError on a non-string (modelled as .error, caught
by the discovery loop); abspath's segment normalization is not modelled —
only emptiness of the result matters downstream and base_dir is a nonempty
absolute path. -/
def Overlay.get_absolute_icon_path (o : Overlay) (base_dir : String) :
    Except Unit JVal :=
  match o.icon_path with
  | .str s => .ok (.str (if s.startsWith "/" then s else base_dir ++ "/" ++ s))
  | _ => .error ()

/-! ### OverlayManager (src/macos_multi_overlay/overlays/init file) -/

/-- OverlayManager.register_overlay: self.overlays[overlay.id] = overlay,
a dict keyed by the overlay's id under Python equality. -/
def register_overlay (overlays : List (JVal × Overlay)) (o : Overlay) :
    List (JVal × Overlay) :=
  assocSet JVal.beq overlays o.id o

/-- One iteration of the _discover_custom_overlays loop over a .json file:
none models a file whose json.load raised; then Overlay.from_json, the icon
path absolutization, and validate() gate registration. Any exception is
caught, logged and the file skipped — the loop never aborts. -/
def process_custom_file (custom_dir : String) (overlays : List (JVal × Overlay))
    (file : Option JVal) : List (JVal × Overlay) :=
  match file with
  | none => overlays
  | some j =>
      match Overlay.from_json j with
      | .error _ => overlays
      | .ok o =>
          match o.get_absolute_icon_path custom_dir with
          | .error _ => overlays
          | .ok p =>
              let o2 := { o with icon_path := p }
              if o2.validate then register_overlay overlays o2 else overlays

/-- OverlayManager._discover_custom_overlays over the custom directory's
files in listing order. -/
def discover_custom_overlays (custom_dir : String)
    (overlays : List (JVal × Overlay)) (files : List (Option JVal)) :
    List (JVal × Overlay) :=
  files.foldl (process_custom_file custom_dir) overlays

/-- Claim C7: a declaration missing the required url field is rejected by
Overlay.from_json, is not registered, and the load of the remaining
declarations proceeds exactly as if the rejected file were absent. -/
theorem from_json_missing_url_skipped (custom_dir : String)
    (overlays : List (JVal × Overlay)) (pre post : List (Option JVal))
    (fields : List (String × JVal)) (hurl : jHasKey fields "url" = false) :
    (∃ e, Overlay.from_json (.obj fields) = .error e) ∧
    discover_custom_overlays custom_dir overlays
        (pre ++ some (.obj fields) :: post) =
      discover_custom_overlays custom_dir overlays (pre ++ post) := by
  have herr : Overlay.from_json (.obj fields) = .error "Missing required fields" := by
    simp [Overlay.from_json, hurl]
  refine ⟨⟨_, herr⟩, ?_⟩
  have hskip : ∀ acc, process_custom_file custom_dir acc (some (.obj fields)) = acc := by
    intro acc
    simp [process_custom_file, herr]
  simp [discover_custom_overlays, List.foldl_append, hskip]

/-- Witness for C7: a concrete two-file directory where the middle file lacks
url loads the same registry as without it, and the bad file is rejected. -/
theorem from_json_missing_url_skipped_witness :
    (∃ e, Overlay.from_json
        (.obj [("id", .str "x"), ("name", .str "X"), ("iconPath", .str "x.png")]) =
      .error e) ∧
    discover_custom_overlays "/tmp/custom" []
        [some (.obj [("id", .str "x"), ("name", .str "X"),
          ("iconPath", .str "x.png")])] =
      discover_custom_overlays "/tmp/custom" [] [] :=
  ⟨(from_json_missing_url_skipped "/tmp/custom" [] [] []
      [("id", .str "x"), ("name", .str "X"), ("iconPath", .str "x.png")] rfl).1,
   (from_json_missing_url_skipped "/tmp/custom" [] [] []
      [("id", .str "x"), ("name", .str "X"), ("iconPath", .str "x.png")] rfl).2⟩

/-- State of the OverlayManager singleton: the registry dict and the current
selection. -/
structure OverlayManagerState where
  overlays : List (JVal × Overlay)
  current_overlay_id : Option JVal

/-- OverlayManager.set_current_overlay: membership test on the registry dict;
on success records the id and returns True, else returns False leaving the
state unchanged. -/
def set_current_overlay (st : OverlayManagerState) (overlay_id : JVal) :
    Bool × OverlayManagerState :=
  if st.overlays.any (fun p => JVal.beq p.1 overlay_id) then
    (true, { st with current_overlay_id := some overlay_id })
  else
    (false, st)

/-- OverlayManager.get_current_overlay. -/
def get_current_overlay (st : OverlayManagerState) : Option Overlay :=
  match st.current_overlay_id with
  | some oid => assocGet JVal.beq st.overlays oid
  | none => none

/-- Claim C10: set_current_overlay returns True and sets the selection
exactly when the id is registered; for an unregistered id it returns False
and mutates nothing. -/
theorem set_current_overlay_spec (st : OverlayManagerState) (overlay_id : JVal) :
    ((assocGet JVal.beq st.overlays overlay_id).isSome = true →
      set_current_overlay st overlay_id =
        (true, { st with current_overlay_id := some overlay_id })) ∧
    ((assocGet JVal.beq st.overlays overlay_id).isSome = false →
      set_current_overlay st overlay_id = (false, st)) := by
  rw [assocGet_isSome_iff_any]
  constructor
  · intro h
    simp [set_current_overlay, h]
  · intro h
    simp [set_current_overlay, h]

/-- A concrete overlay: the built-in GrokOverlay
(src/macos_multi_overlay/overlays/builtin/grok.py). -/
def grokOverlay : Overlay :=
  { id := .str "grok",
    name := .str "Grok",
    url := .str "https://grok.com?referrer=macos-multi-overlay",
    icon_path := .str "../../images/grok_logo.png",
    default_hotkey := .obj [("flags", .num 524288), ("key", .num 49)],
    description := .str "Grok AI assistant by xAI" }

/-- Witness for C10: with only grok registered, selecting "grok" succeeds and
selecting "claude" fails without mutating the state. -/
theorem set_current_overlay_spec_witness :
    set_current_overlay
        { overlays := [(.str "grok", grokOverlay)], current_overlay_id := none }
        (.str "grok") =
      (true, { overlays := [(.str "grok", grokOverlay)],
               current_overlay_id := some (.str "grok") }) ∧
    set_current_overlay
        { overlays := [(.str "grok", grokOverlay)], current_overlay_id := none }
        (.str "claude") =
      (false, { overlays := [(.str "grok", grokOverlay)],
                current_overlay_id := none }) :=
  ⟨(set_current_overlay_spec
      { overlays := [(.str "grok", grokOverlay)], current_overlay_id := none }
      (.str "grok")).1 rfl,
   (set_current_overlay_spec
      { overlays := [(.str "grok", grokOverlay)], current_overlay_id := none }
      (.str "claude")).2 rfl⟩

/-! ### AppDelegate window logic (src/macos_multi_overlay/ui/app.py) -/

/-- Window-relevant state of the AppDelegate: the overlay manager singleton
and whether the overlay window is the key window (showWindow_ makes it key
and front; NSApp.hide_ resigns it). -/
structure AppState where
  mgr : OverlayManagerState
  isKey : Bool

/-- AppDelegate.showWindow_ (the webview focus script is an external
effect). -/
def showWindow (st : AppState) : AppState :=
  { st with isKey := true }

/-- AppDelegate.hideWindow_: NSApp.hide_(None) only — the window loses key
status; nothing else is touched. -/
def hideWindow (st : AppState) : AppState :=
  { st with isKey := false }

/-- AppDelegate.toggle_overlay: hide when the window is key AND a current
overlay exists AND its id equals the requested one; otherwise select the
id (when registered) and show. load_current_overlay's navigation is an
external effect. -/
def toggle_overlay (st : AppState) (overlay_id : JVal) : AppState :=
  let isCurrent :=
    match get_current_overlay st.mgr with
    | some cur => JVal.beq cur.id overlay_id
    | none => false
  if st.isKey && isCurrent then
    hideWindow st
  else
    let r := set_current_overlay st.mgr overlay_id
    if r.1 then showWindow { st with mgr := r.2 } else { st with mgr := r.2 }

/-- Joint state of the AppDelegate and the HotkeyManager singleton, to state
frame conditions of window operations. -/
structure FullAppState where
  app : AppState
  hm : HMState

/-- hideWindow_ on the joint state: it only resigns the window. -/
def hideWindow_full (s : FullAppState) : FullAppState :=
  { s with app := hideWindow s.app }

/-- Claim C8: hideWindow_ hides the window without changing the overlay
manager's current selection or registry, and without touching any
hotkey-table entry or the unified-menu binding. -/
theorem hideWindow_frame (s : FullAppState) :
    (hideWindow_full s).app.mgr.current_overlay_id =
        s.app.mgr.current_overlay_id ∧
    (hideWindow_full s).app.mgr = s.app.mgr ∧
    (hideWindow_full s).hm.hotkeys = s.hm.hotkeys ∧
    (hideWindow_full s).hm.unified = s.hm.unified ∧
    (hideWindow_full s).app.isKey = false :=
  ⟨rfl, rfl, rfl, rfl, rfl⟩

/-- Counterexample to claim C3: with only grok registered and the window
hidden, one toggle_overlay "grok" shows the window, but a second
toggle_overlay "grok" hides it again — two calls are not idempotent and do
not end with the window visible. -/
theorem toggle_overlay_twice_counterexample :
    (toggle_overlay
        { mgr := { overlays := [(.str "grok", grokOverlay)],
                   current_overlay_id := some (.str "grok") },
          isKey := false } (.str "grok")).isKey = true ∧
    (toggle_overlay
        (toggle_overlay
          { mgr := { overlays := [(.str "grok", grokOverlay)],
                     current_overlay_id := some (.str "grok") },
            isKey := false } (.str "grok")) (.str "grok")).isKey = false :=
  ⟨rfl, rfl⟩

/-- Claim C3 (amended): starting with the window hidden and a registered id,
one toggle_overlay call ends with the window visible and the id selected;
a second call in a row hides the window again (the selection stays on the
id) — calling twice is not identical to calling once. -/
theorem toggle_overlay_twice_from_hidden (st : AppState) (overlay_id : JVal)
    (o : Overlay) (hhid : st.isKey = false)
    (hreg : assocGet JVal.beq st.mgr.overlays overlay_id = some o)
    (hido : JVal.beq o.id overlay_id = true) :
    (toggle_overlay st overlay_id).isKey = true ∧
    (toggle_overlay st overlay_id).mgr.current_overlay_id = some overlay_id ∧
    (toggle_overlay (toggle_overlay st overlay_id) overlay_id).isKey = false ∧
    (toggle_overlay (toggle_overlay st overlay_id) overlay_id).mgr.current_overlay_id =
      some overlay_id := by
  have hany : st.mgr.overlays.any (fun p => JVal.beq p.1 overlay_id) = true := by
    rw [← assocGet_isSome_iff_any, hreg]
    rfl
  have h1 : toggle_overlay st overlay_id =
      { mgr := { overlays := st.mgr.overlays,
                 current_overlay_id := some overlay_id },
        isKey := true } := by
    simp [toggle_overlay, hhid, set_current_overlay, hany, showWindow]
  have hcur : get_current_overlay
      { overlays := st.mgr.overlays, current_overlay_id := some overlay_id } =
        some o := by
    simp [get_current_overlay, hreg]
  have h2 : toggle_overlay (toggle_overlay st overlay_id) overlay_id =
      hideWindow (toggle_overlay st overlay_id) := by
    rw [h1]
    simp [toggle_overlay, hcur, hido]
  refine ⟨by rw [h1], by rw [h1], by rw [h2, h1]; rfl, by rw [h2, h1]; rfl⟩

/-- Witness for the amended C3: the concrete grok-only session from the
counterexample follows the show-then-hide pattern. -/
theorem toggle_overlay_twice_from_hidden_witness :
    (toggle_overlay
        { mgr := { overlays := [(.str "grok", grokOverlay)],
                   current_overlay_id := some (.str "grok") },
          isKey := false } (.str "grok")).isKey = true ∧
    (toggle_overlay
        (toggle_overlay
          { mgr := { overlays := [(.str "grok", grokOverlay)],
                     current_overlay_id := some (.str "grok") },
            isKey := false } (.str "grok")) (.str "grok")).mgr.current_overlay_id =
      some (.str "grok") :=
  ⟨(toggle_overlay_twice_from_hidden
      { mgr := { overlays := [(.str "grok", grokOverlay)],
                 current_overlay_id := some (.str "grok") },
        isKey := false } (.str "grok") grokOverlay rfl rfl rfl).1,
   (toggle_overlay_twice_from_hidden
      { mgr := { overlays := [(.str "grok", grokOverlay)],
                 current_overlay_id := some (.str "grok") },
        isKey := false } (.str "grok") grokOverlay rfl rfl rfl).2.2.2⟩

/-! ### Persisted hotkey loading (HotkeyManager.load_hotkeys) -/

/-- In-memory hotkey state exactly as load_hotkeys produces it, before any
typing assumption: table entries and the unified binding are arbitrary JSON
values adopted from the file. -/
structure RawHMState where
  hotkeys : List (String × JVal)
  unified : JVal

/-- The built-in default unified-menu binding as a JSON value
(Option+Shift+Space). -/
def UNIFIED_MENU_TRIGGER_J : JVal :=
  .obj [("flags", .num 655360), ("key", .num 49)]

/-- Successfully parsed content of hotkeys.json: the values of the top-level
keys "overlays" (an object of per-overlay entries) and "unified_menu",
each when present. A missing file or a json.load failure is represented
as none at the call site (the except branch keeps the initial state). -/
structure HotkeysFileData where
  overlays : Option (List (String × JVal))
  unified_menu : Option JVal

/-- The loop ending load_hotkeys: for every registered overlay (given as its
id and default_hotkey; built-in ids are strings), append the
registry-supplied default when the id is not yet a key of the table. -/
def init_overlay_defaults (registry : List (String × JVal))
    (hks : List (String × JVal)) : List (String × JVal) :=
  registry.foldl
    (fun acc o => if (strDictGet acc o.1).isSome then acc else acc ++ [o]) hks

/-- HotkeyManager.load_hotkeys starting from the freshly initialized state
(empty table, built-in unified default): a missing or unparseable file
keeps the initial state; otherwise the stored "overlays" object and
"unified_menu" value are adopted verbatim when present — no per-entry
validation happens. Registry defaults then fill only the missing ids. -/
def load_hotkeys (registry : List (String × JVal))
    (file : Option HotkeysFileData) : RawHMState :=
  let st1 : RawHMState :=
    match file with
    | none => { hotkeys := [], unified := UNIFIED_MENU_TRIGGER_J }
    | some d =>
        { hotkeys := d.overlays.getD [],
          unified := d.unified_menu.getD UNIFIED_MENU_TRIGGER_J }
  { st1 with hotkeys := init_overlay_defaults registry st1.hotkeys }

/-- A table entry usable as a binding: an object carrying integer "flags"
and "key" fields, the shape handle_key_event subscripts. -/
def wellFormedBinding : JVal → Bool
  | .obj fields =>
      (match strDictGet fields "flags" with
        | some (.num _) => true
        | _ => false) &&
      (match strDictGet fields "key" with
        | some (.num _) => true
        | _ => false)
  | _ => false

theorem strDictGet_append_left {α : Type} (d₁ d₂ : List (String × α))
    (k : String) (v : α) (h : strDictGet d₁ k = some v) :
    strDictGet (d₁ ++ d₂) k = some v := by
  unfold strDictGet at *
  rw [assocGet_append, h]

theorem strDictGet_append_right {α : Type} (d₁ d₂ : List (String × α))
    (k : String) (h : strDictGet d₁ k = none) :
    strDictGet (d₁ ++ d₂) k = strDictGet d₂ k := by
  unfold strDictGet at *
  rw [assocGet_append, h]

theorem init_overlay_defaults_preserves (registry : List (String × JVal)) :
    ∀ (acc : List (String × JVal)) (k : String) (v : JVal),
      strDictGet acc k = some v →
      strDictGet (init_overlay_defaults registry acc) k = some v := by
  induction registry with
  | nil => intro acc k v h; exact h
  | cons p t ih =>
    intro acc k v h
    by_cases hp : (strDictGet acc p.1).isSome = true
    · have hstep : init_overlay_defaults (p :: t) acc =
          init_overlay_defaults t acc := by
        simp [init_overlay_defaults, hp]
      rw [hstep]
      exact ih acc k v h
    · have hstep : init_overlay_defaults (p :: t) acc =
          init_overlay_defaults t (acc ++ [p]) := by
        simp [init_overlay_defaults, hp]
      rw [hstep]
      exact ih (acc ++ [p]) k v (strDictGet_append_left acc [p] k v h)

theorem init_overlay_defaults_fills (registry : List (String × JVal)) :
    ∀ (acc : List (String × JVal)) (o : String × JVal), o ∈ registry →
      (registry.map Prod.fst).Nodup → strDictGet acc o.1 = none →
      strDictGet (init_overlay_defaults registry acc) o.1 = some o.2 := by
  induction registry with
  | nil => intro acc o hmem; cases hmem
  | cons p t ih =>
    intro acc o hmem hnd hnone
    rcases List.mem_cons.mp hmem with rfl | hmem2
    · have hstep : init_overlay_defaults (o :: t) acc =
          init_overlay_defaults t (acc ++ [o]) := by
        simp [init_overlay_defaults, hnone]
      have hget : strDictGet (acc ++ [o]) o.1 = some o.2 := by
        rw [strDictGet_append_right acc [o] o.1 hnone]
        simp [strDictGet, assocGet, List.find?]
      rw [hstep]
      exact init_overlay_defaults_preserves t (acc ++ [o]) o.1 o.2 hget
    · have hne : (p.1 == o.1) = false := by
        have hmemid : o.1 ∈ t.map Prod.fst := List.mem_map_of_mem Prod.fst hmem2
        have hnotin := (List.nodup_cons.mp hnd).1
        rw [beq_eq_false_iff_ne]
        intro hcontra
        exact hnotin (hcontra ▸ hmemid)
      by_cases hp : (strDictGet acc p.1).isSome = true
      · have hstep : init_overlay_defaults (p :: t) acc =
            init_overlay_defaults t acc := by
          simp [init_overlay_defaults, hp]
        rw [hstep]
        exact ih acc o hmem2 (List.nodup_cons.mp hnd).2 hnone
      · have hstep : init_overlay_defaults (p :: t) acc =
            init_overlay_defaults t (acc ++ [p]) := by
          simp [init_overlay_defaults, hp]
        have hnone2 : strDictGet (acc ++ [p]) o.1 = none := by
          rw [strDictGet_append_right acc [p] o.1 hnone]
          simp [strDictGet, assocGet, List.find?, hne]
        rw [hstep]
        exact ih (acc ++ [p]) o hmem2 (List.nodup_cons.mp hnd).2 hnone2

/-- Counterexample to claim C6: loading a stored table whose "grok" entry is
the malformed value "banana", with grok's registry default available, keeps
the malformed entry as the active binding for "grok" — it is not ignored
and the default is not used. -/
theorem load_hotkeys_malformed_entry_counterexample :
    strDictGet
        (load_hotkeys
          [("grok", .obj [("flags", .num 524288), ("key", .num 49)])]
          (some { overlays := some [("grok", .str "banana")],
                  unified_menu := none })).hotkeys "grok" =
      some (.str "banana") ∧
    wellFormedBinding (.str "banana") = false ∧
    JVal.beq (.str "banana")
        (.obj [("flags", .num 524288), ("key", .num 49)]) = false :=
  ⟨rfl, rfl, rfl⟩

/-- Claim C6 (amended): load_hotkeys validates nothing per entry. Only a
missing or wholly unparseable file falls back to defaults: then every
registered overlay gets its registry-supplied default and the unified menu
its built-in default. When the file parses, any entry stored under
"overlays" — malformed or not — is adopted verbatim as the active binding
for its id, and a stored "unified_menu" value is adopted verbatim as the
active unified-menu binding. -/
theorem load_hotkeys_file_granularity :
    (∀ registry : List (String × JVal), (registry.map Prod.fst).Nodup →
      ∀ o ∈ registry,
        strDictGet (load_hotkeys registry none).hotkeys o.1 = some o.2) ∧
    (∀ registry : List (String × JVal),
      (load_hotkeys registry none).unified = UNIFIED_MENU_TRIGGER_J) ∧
    (∀ (registry : List (String × JVal)) (d : HotkeysFileData) (id : String)
        (v : JVal), strDictGet (d.overlays.getD []) id = some v →
      strDictGet (load_hotkeys registry (some d)).hotkeys id = some v) ∧
    (∀ (registry : List (String × JVal)) (d : HotkeysFileData) (v : JVal),
      d.unified_menu = some v →
      (load_hotkeys registry (some d)).unified = v) := by
  refine ⟨?_, ?_, ?_, ?_⟩
  · intro registry hnd o hmem
    exact init_overlay_defaults_fills registry [] o hmem hnd rfl
  · intro registry
    rfl
  · intro registry d id v h
    exact init_overlay_defaults_preserves registry (d.overlays.getD []) id v h
  · intro registry d v h
    simp [load_hotkeys, h]

/-- Witness for the amended C6: with no file, grok receives its registry
default; with the malformed file of the counterexample, the stored entry is
adopted verbatim. -/
theorem load_hotkeys_file_granularity_witness :
    strDictGet
        (load_hotkeys
          [("grok", .obj [("flags", .num 524288), ("key", .num 49)])]
          none).hotkeys "grok" =
      some (.obj [("flags", .num 524288), ("key", .num 49)]) ∧
    strDictGet
        (load_hotkeys
          [("grok", .obj [("flags", .num 524288), ("key", .num 49)])]
          (some { overlays := some [("grok", .str "banana")],
                  unified_menu := none })).hotkeys "grok" =
      some (.str "banana") :=
  ⟨load_hotkeys_file_granularity.1
      [("grok", .obj [("flags", .num 524288), ("key", .num 49)])] (by simp)
      ("grok", .obj [("flags", .num 524288), ("key", .num 49)])
      (List.mem_singleton.mpr rfl),
   load_hotkeys_file_granularity.2.2.1
      [("grok", .obj [("flags", .num 524288), ("key", .num 49)])]
      { overlays := some [("grok", .str "banana")], unified_menu := none }
      "grok" (.str "banana") rfl⟩

end MacosAiOverlay
